import Mathlib

/-!
Verification development for the drug-safety-mcp tool server
(`src/tools/handlers.ts`, `src/tools/definitions.ts`, `src/index.ts`).

The TypeScript handlers are shallowly embedded as pure Lean functions:
* JS strings are Lean `String`s (the inputs involved are ASCII),
* JS numbers occurring as counts/limits are `Nat`, coded enum terms are `Int`,
  exact fractional arithmetic models JS float arithmetic at the (moderate)
  magnitudes involved,
* the openFDA HTTP round-trip is an explicit `FAERSResponse` argument
  (an oracle), so a handler is a pure function from its arguments and the
  upstream envelope(s) to its JSON-shaped result,
* thrown `McpError`s become `Except McpError` results.
-/

namespace DrugSafety

-- ===========================================================================
-- DEFINITIONS (shallow embedding of the handlers)
-- ===========================================================================

/-- JS value appearing as an aggregation `term` (number or string). -/
inductive JsVal where
  | num (n : Int)
  | str (s : String)
deriving DecidableEq

/-- JS `x || d` for an optional numeric argument: `undefined` and `0` are
falsy and fall through to the default. -/
def jsOrNat (x : Option Nat) (d : Nat) : Nat :=
  match x with
  | none => d
  | some 0 => d
  | some n => n

/-- JS `x || d` for an optional string argument: `undefined` and `""` are
falsy and fall through to the default. -/
def jsOrStr (x : Option String) (d : String) : String :=
  match x with
  | none => d
  | some s => if s = "" then d else s

/-- `ErrorCode` values used by the handlers (from `@sineai/mcp-core`). -/
inductive ErrorCode where
  | invalidParams
  | methodNotFound
  | internalError
deriving DecidableEq

/-- A thrown `McpError(code, message)`. -/
structure McpError where
  code : ErrorCode
  message : String
deriving DecidableEq

/-- ASCII lowercasing, modelling `String.prototype.toLowerCase` on the
ASCII strings involved. -/
def lowerStr (s : String) : String :=
  String.mk (s.data.map Char.toLower)

/-- `String.prototype.includes`: does `needle` occur as a contiguous
substring of the haystack? -/
def containsSub (needle : List Char) : List Char → Bool
  | [] => needle.isEmpty
  | c :: rest => (needle.isPrefixOf (c :: rest)) || containsSub needle rest

/-- `drugName.replace(/"/g, '\\"')`: escape every double quote. -/
def escapeQuotes (s : String) : String :=
  String.mk (s.data.flatMap fun c => if c = '"' then ['\\', '"'] else [c])

/-- `str.slice(a, b)` for ASCII strings (character = UTF-16 unit here). -/
def jsSlice (s : String) (a b : Nat) : String :=
  String.mk ((s.data.drop a).take (b - a))

/-- Query parameters handed to `buildUrl`/`fetchFAERS`
(the `FAERSSearchParams` interface). -/
structure FetchParams where
  search : Option String := none
  count : Option String := none
  limit : Option Nat := none
  skip : Option Nat := none
deriving DecidableEq

/-- The parsed upstream envelope as consumed by the handlers:
`meta.results.total` and the `results` array (absent on some error
payloads).  `α` is the per-tool raw record shape. -/
structure FAERSResponse (α : Type) where
  metaTotal : Option Nat := none
  results : Option (List α) := none
  error : Option (String × String) := none

/-- A `{term, count}` record returned by a `count=` aggregation query. -/
structure CountItem where
  term : JsVal
  count : Nat
deriving DecidableEq

-- ===========================================================================
-- Query Builder (`buildDrugSearch`, `buildDateRangeSearch`, handlers.ts)
-- ===========================================================================

/-- `buildDrugSearch` from handlers.ts: the interpolated template
`(patient.drug.openfda.brand_name:"E"+OR+patient.drug.openfda.generic_name:"E"+OR+patient.drug.medicinalproduct:"E")`
with `E` the quote-escaped drug name. -/
def buildDrugSearch (drugName : String) : String :=
  let escapedName := escapeQuotes drugName
  "(patient.drug.openfda.brand_name:\"" ++ escapedName
    ++ "\"+OR+patient.drug.openfda.generic_name:\"" ++ escapedName
    ++ "\"+OR+patient.drug.medicinalproduct:\"" ++ escapedName
    ++ "\")"

/-- `buildDateRangeSearch` from handlers.ts. -/
def buildDateRangeSearch (startDate endDate : Option String) : String :=
  match startDate, endDate with
  | none, none => ""
  | _, _ =>
    let s := jsOrStr startDate "19000101"
    let e := jsOrStr endDate "29991231"
    "+AND+receivedate:[" ++ s ++ "+TO+" ++ e ++ "]"

/-- Spec reading of the drug-name clause: one field sub-clause, the field
name, a colon, and the input name double-quote-wrapped with internal double
quotes escaped. -/
def specFieldClause (field name : String) : String :=
  field ++ ":\"" ++ escapeQuotes name ++ "\""

/-- Spec reading of `buildDrugSearch`: a single parenthesized clause of
exactly three `+OR+`-joined field sub-clauses (brand name, generic name,
medicinal product). -/
def specDrugSearch (name : String) : String :=
  "(" ++ specFieldClause "patient.drug.openfda.brand_name" name
    ++ "+OR+" ++ specFieldClause "patient.drug.openfda.generic_name" name
    ++ "+OR+" ++ specFieldClause "patient.drug.medicinalproduct" name
    ++ ")"

-- ===========================================================================
-- Disclaimer constant (handlers.ts `FAERS_DISCLAIMER`)
-- ===========================================================================

/-- The `FAERS_DISCLAIMER` template literal, verbatim. -/
def FAERS_DISCLAIMER : String :=
  "\nIMPORTANT DATA LIMITATIONS:\n- A report in FAERS does NOT prove the drug caused the adverse event\n- Reports are voluntarily submitted and may be incomplete or duplicated\n- Reporting rates cannot be used to calculate incidence rates\n- Many factors influence reporting (publicity, time on market, etc.)\n- This data should not be the sole basis for clinical decisions\n- Always consult healthcare professionals for medical advice\n\nSource: FDA Adverse Event Reporting System (FAERS) via OpenFDA API\n"

-- ===========================================================================
-- Parameter validation
-- ===========================================================================

/-- Modelled from the spec: `validateInput` is imported from
`@sineai/mcp-core`, which is not part of this repository.  Per the spec,
each handler "independently validates its required string parameters are
present and non-empty before doing any network I/O", and an empty-string
parameter "raises an error mentioning 'empty'". -/
def validateInput (s : String) : Except McpError Unit :=
  if s = "" then .error ⟨.invalidParams, "Parameter must not be empty"⟩ else .ok ()

-- ===========================================================================
-- Pre-fetch stages of the handlers relevant to C1/C2 — each returns either
-- the thrown `McpError` or the `FetchParams` of the first outbound HTTP GET.
-- ===========================================================================

/-- `handleSearchAdverseEvents`, up to (and including) the parameters of its
single `fetchFAERS` call.  `limit` is passed as
`Math.min(args.limit || 10, 100)` — clamped, never rejected. -/
def searchAdverseEventsPrepare (drug_name : String)
    (reaction start_date end_date : Option String) (serious : Bool)
    (limit : Option Nat) : Except McpError FetchParams := do
  (validateInput drug_name : Except McpError Unit)
  (match reaction with | some r => validateInput r | none => .ok ())
  (match start_date with | some d => validateInput d | none => .ok ())
  (match end_date with | some d => validateInput d | none => .ok ())
  let search0 := buildDrugSearch drug_name
  let search1 :=
    match reaction with
    | some r => search0 ++ "+AND+patient.reaction.reactionmeddrapt:\"" ++ r ++ "\""
    | none => search0
  let search2 :=
    if start_date.isSome || end_date.isSome then
      search1 ++ buildDateRangeSearch start_date end_date
    else search1
  let search3 := if serious then search2 ++ "+AND+serious:1" else search2
  return { search := some search3, limit := some (min (jsOrNat limit 10) 100) }

/-- The `countFieldMap` of `handleGetEventCounts`. -/
def countFieldMap (group_by : String) : Option String :=
  if group_by = "reaction" then some "patient.reaction.reactionmeddrapt.exact"
  else if group_by = "outcome" then some "patient.reaction.reactionoutcome"
  else if group_by = "age" then some "patient.patientonsetage"
  else if group_by = "sex" then some "patient.patientsex"
  else if group_by = "country" then some "occurcountry.exact"
  else if group_by = "reporter_type" then some "primarysource.qualification"
  else if group_by = "route" then some "patient.drug.drugadministrationroute"
  else none

/-- `handleGetEventCounts` up to its `fetchFAERS` call: an unrecognized
`group_by` throws `InvalidParams` before any HTTP request. -/
def getEventCountsPrepare (drug_name group_by : String) (limit : Option Nat) :
    Except McpError FetchParams := do
  (validateInput drug_name : Except McpError Unit)
  match countFieldMap group_by with
  | none => .error ⟨.invalidParams, "Invalid group_by field: " ++ group_by⟩
  | some countField =>
      return { search := some (buildDrugSearch drug_name), count := some countField,
               limit := some (jsOrNat limit 20) }

/-- `handleSearchByIndication` up to its `fetchFAERS` call: `group_by`
defaults to `"drug"`, and any value other than `"reaction"` falls through
to the brand-name count field — no enum check is performed. -/
def searchByIndicationPrepare (indication : String) (group_by : Option String)
    (limit : Option Nat) : Except McpError FetchParams := do
  (validateInput indication : Except McpError Unit)
  let groupBy := jsOrStr group_by "drug"
  let search := "patient.drug.drugindication:\"" ++ escapeQuotes indication ++ "\""
  let countField :=
    if groupBy = "reaction" then "patient.reaction.reactionmeddrapt.exact"
    else "patient.drug.openfda.brand_name.exact"
  return { search := some search, count := some countField,
           limit := some (jsOrNat limit 20) }

/-- `handleGetRecallInfo` up to its enforcement-endpoint fetch: an arbitrary
`classification` (and `status`) string is interpolated into the search
expression without validation. -/
def getRecallInfoPrepare (drug_name : String)
    (classification status : Option String) (limit : Option Nat) :
    Except McpError FetchParams := do
  (validateInput drug_name : Except McpError Unit)
  let escapedName := escapeQuotes drug_name
  let search0 := "(product_description:\"" ++ escapedName
    ++ "\"+OR+openfda.brand_name:\"" ++ escapedName
    ++ "\"+OR+openfda.generic_name:\"" ++ escapedName ++ "\")"
  let search1 :=
    match classification with
    | some c => search0 ++ "+AND+classification:\"" ++ c ++ "\""
    | none => search0
  let search2 :=
    match status with
    | some st => search1 ++ "+AND+status:\"" ++ st ++ "\""
    | none => search1
  return { search := some search2, limit := some (jsOrNat limit 10) }

-- ===========================================================================
-- Coded-enum decoding (C3)
-- ===========================================================================

/-- The `outcomeMap` literal of `handleGetEventCounts` /
`handleGetSafetySummary` (keys 1–6). -/
def outcomeLabel (t : Int) : Option String :=
  if t = 1 then some "Recovered"
  else if t = 2 then some "Recovering"
  else if t = 3 then some "Not recovered"
  else if t = 4 then some "Recovered with sequelae"
  else if t = 5 then some "Fatal"
  else if t = 6 then some "Unknown"
  else none

/-- The `reporterMap` literal of `handleGetEventCounts` (keys 1–5). -/
def reporterLabel (t : Int) : Option String :=
  if t = 1 then some "Physician"
  else if t = 2 then some "Pharmacist"
  else if t = 3 then some "Other health professional"
  else if t = 4 then some "Lawyer"
  else if t = 5 then some "Consumer"
  else none

/-- The term-translation step of `handleGetEventCounts`:
`sex` uses strict numeric equality with 1/2 and otherwise yields
`"Unknown"`; `outcome` and `reporter_type` use `map[term] || term`
(label when mapped, the raw term otherwise); other dimensions pass the
term through. -/
def eventCountsTerm (group_by : String) (term : JsVal) : JsVal :=
  if group_by = "sex" then
    .str (if term = .num 1 then "Male" else if term = .num 2 then "Female" else "Unknown")
  else if group_by = "outcome" then
    match term with
    | .num t => ((outcomeLabel t).map JsVal.str).getD (.num t)
    | other => other
  else if group_by = "reporter_type" then
    match term with
    | .num t => ((reporterLabel t).map JsVal.str).getD (.num t)
    | other => other
  else term

/-- Outcome decoding in `handleGetSafetySummary`:
`outcomeMap[item.term] || `Code ${item.term}``. -/
def safetySummaryOutcome (t : Int) : String :=
  (outcomeLabel t).getD ("Code " ++ toString t)

/-- The sex decoding used by the pediatric/geriatric sex distributions:
`item.term === 1 ? "Male" : item.term === 2 ? "Female" : "Unknown"`. -/
def sexDistributionLabel (term : JsVal) : String :=
  if term = .num 1 then "Male" else if term = .num 2 then "Female" else "Unknown"

-- ===========================================================================
-- C4: pediatric/geriatric comparison ratios and set differences
-- ===========================================================================

/-- A `{reaction, report_count}` entry produced by the comparison
handlers. -/
structure ReactionCount where
  reaction : String
  count : Nat
deriving DecidableEq

/-- `xs.filter(r => !otherMap.has(r.reaction))` where `otherMap` is a `Map`
keyed by the exact reaction labels of `ys`. -/
def uniqueAgainst (xs ys : List ReactionCount) : List ReactionCount :=
  xs.filter fun r => ! ys.any fun y => y.reaction == r.reaction

/-- `Math.round`: round-half-up (`Math.round x = ⌊x + 1/2⌋`); exact rational
arithmetic models the JS float arithmetic at the magnitudes involved. -/
def jsRound (q : ℚ) : ℤ := ⌊q + 1 / 2⌋

/-- The `report_ratio` of `handleGetPediatricSafety`:
`` ped > 0 && adult > 0 ? `1:${Math.round(adult / ped)}` : "N/A" ``. -/
def pediatricReportRatio (pediatricTotal adultTotal : Nat) : String :=
  if 0 < pediatricTotal ∧ 0 < adultTotal then
    "1:" ++ toString (jsRound ((adultTotal : ℚ) / (pediatricTotal : ℚ)))
  else "N/A"

/-- Decimal rendering of `k / 100` (`k ≥ 0`), as JS template interpolation
prints the number `Math.round(x * 100) / 100` (shortest decimal that
round-trips, which for these hundredths values is the exact expansion with
trailing zeros dropped). -/
def formatHundredths (k : ℤ) : String :=
  let ip := k / 100
  let fr := k % 100
  if fr = 0 then toString ip
  else if fr % 10 = 0 then toString ip ++ "." ++ toString (fr / 10)
  else if fr < 10 then toString ip ++ ".0" ++ toString fr
  else toString ip ++ "." ++ toString fr

/-- The `report_ratio` of `handleGetGeriatricSafety`:
`` ger > 0 && adult > 0 ? `${Math.round(ger / adult * 100) / 100}:1` : "N/A" ``. -/
def geriatricReportRatio (geriatricTotal adultTotal : Nat) : String :=
  if 0 < geriatricTotal ∧ 0 < adultTotal then
    formatHundredths (jsRound ((geriatricTotal : ℚ) / (adultTotal : ℚ) * 100)) ++ ":1"
  else "N/A"

-- ===========================================================================
-- C10: concomitant-drug filtering
-- ===========================================================================

/-- A `{term, count}` record whose term is a drug-name string. -/
structure TermCount where
  term : String
  count : Nat
deriving DecidableEq

/-- `handleGetConcomitantDrugs` up to its `fetchFAERS` call: it requests
`(args.limit || 20) + 5` records ("Get extra to filter out the primary
drug"). -/
def getConcomitantDrugsPrepare (drug_name : String) (limit : Option Nat) :
    Except McpError FetchParams := do
  (validateInput drug_name : Except McpError Unit)
  return { search := some (buildDrugSearch drug_name),
           count := some "patient.drug.openfda.brand_name.exact",
           limit := some (jsOrNat limit 20 + 5) }

/-- The concomitant list of `handleGetConcomitantDrugs`: drop every record
whose term contains the primary drug name case-insensitively, then
`.slice(0, args.limit || 20)`. -/
def concomitantDrugs (drug_name : String) (limit : Option Nat)
    (results : List TermCount) : List TermCount :=
  let primaryLower := lowerStr drug_name
  (results.filter fun item =>
    ! containsSub primaryLower.data (lowerStr item.term).data).take (jsOrNat limit 20)

-- ===========================================================================
-- C6: tool dispatch (`handleTool`, handlers.ts)
-- ===========================================================================

/-- One identifier per handler wired into the `handleTool` switch. -/
inductive HandlerId where
  | searchAdverseEvents
  | getEventCounts
  | compareSafetyProfiles
  | getSeriousEvents
  | getReportingTrends
  | searchByReaction
  | getConcomitantDrugs
  | getDataInfo
  | getDrugLabelInfo
  | getRecallInfo
  | searchByIndication
  | searchByDrugClass
  | compareLabelToReports
  | getPediatricSafety
  | getGeriatricSafety
  | getSafetySummary
  | getPregnancyLactationInfo
deriving DecidableEq

/-- The 17 registered tool names (the `case` labels of `handleTool`,
matching `TOOLS` in definitions.ts). -/
def toolNames : List String :=
  ["search_adverse_events", "get_event_counts", "compare_safety_profiles",
   "get_serious_events", "get_reporting_trends", "search_by_reaction",
   "get_concomitant_drugs", "get_data_info", "get_drug_label_info",
   "get_recall_info", "search_by_indication", "search_by_drug_class",
   "compare_label_to_reports", "get_pediatric_safety", "get_geriatric_safety",
   "get_safety_summary", "get_pregnancy_lactation_info"]

/-- The `handleTool` switch: resolve the handler by exact name, or throw
`McpError(MethodNotFound, "Unknown tool: <name>")` on the default branch
(before any handler — hence before any network request — runs). -/
def handleTool (name : String) : Except McpError HandlerId :=
  if name = "search_adverse_events" then .ok .searchAdverseEvents
  else if name = "get_event_counts" then .ok .getEventCounts
  else if name = "compare_safety_profiles" then .ok .compareSafetyProfiles
  else if name = "get_serious_events" then .ok .getSeriousEvents
  else if name = "get_reporting_trends" then .ok .getReportingTrends
  else if name = "search_by_reaction" then .ok .searchByReaction
  else if name = "get_concomitant_drugs" then .ok .getConcomitantDrugs
  else if name = "get_data_info" then .ok .getDataInfo
  else if name = "get_drug_label_info" then .ok .getDrugLabelInfo
  else if name = "get_recall_info" then .ok .getRecallInfo
  else if name = "search_by_indication" then .ok .searchByIndication
  else if name = "search_by_drug_class" then .ok .searchByDrugClass
  else if name = "compare_label_to_reports" then .ok .compareLabelToReports
  else if name = "get_pediatric_safety" then .ok .getPediatricSafety
  else if name = "get_geriatric_safety" then .ok .getGeriatricSafety
  else if name = "get_safety_summary" then .ok .getSafetySummary
  else if name = "get_pregnancy_lactation_info" then .ok .getPregnancyLactationInfo
  else .error ⟨.methodNotFound, "Unknown tool: " ++ name⟩

/-- Outbound HTTP requests of one `handleTool` invocation, for an arbitrary
assignment `plan` of request counts to the handlers: requests are issued
only inside handlers, so a dispatch error issues none. -/
def handleToolFetches (name : String) (plan : HandlerId → Nat) : Nat :=
  match handleTool name with
  | .error _ => 0
  | .ok h => plan h

-- ===========================================================================
-- JSON-shaped handler results (C7/C8)
-- ===========================================================================

/-- JSON-compatible result values built by the handlers.  JS `undefined`
slots that would be dropped by serialization are modelled as `null`; no
claim distinguishes the two. -/
inductive Json where
  | null
  | bool (b : Bool)
  | num (q : ℚ)
  | str (s : String)
  | arr (items : List Json)
  | obj (fields : List (String × Json))

/-- First field of an object with the given key, if any. -/
def Json.getField (j : Json) (key : String) : Option Json :=
  match j with
  | .obj fields => (fields.find? fun f => f.1 == key).map (fun f => f.2)
  | _ => none

/-- JS object assignment `o[k] = v`: overwrite in place, else append. -/
def objUpsert (fields : List (String × Json)) (k : String) (v : Json) :
    List (String × Json) :=
  match fields with
  | [] => [(k, v)]
  | (k2, v2) :: rest =>
      if k2 = k then (k2, v) :: rest else (k2, v2) :: objUpsert rest k v

def jsvalToJson : JsVal → Json
  | .num n => .num n
  | .str s => .str s

/-- A possibly-missing string slot (`undefined` modelled as `null`). -/
def optStrJ : Option String → Json
  | some s => .str s
  | none => .null

/-- `x || null` on an optional string: empty and missing both yield null. -/
def orNullStr : Option String → Json
  | some s => if s = "" then .null else .str s
  | none => .null

/-- `a?.[0]`: first element of an optional array. -/
def getFirst (o : Option (List String)) : Option String :=
  o.bind List.head?

/-- Truthiness of an optional string (`undefined` and `""` are falsy). -/
def jsTruthyStr : Option String → Bool
  | some s => s ≠ ""
  | none => false

/-- Template interpolation of a possibly-undefined value
(JS prints `undefined`). -/
def tmplStr : Option String → String
  | some s => s
  | none => "undefined"

def optNumJ : Option Nat → Json
  | some n => .num n
  | none => .null

-- Raw upstream record shapes (exactly the fields the handlers read).

structure ReactionRecord where
  reactionmeddrapt : Option String := none
  reactionoutcome : Option String := none
deriving DecidableEq

structure DrugRecord where
  medicinalproduct : Option String := none
  drugindication : Option String := none
  drugcharacterization : Option String := none
deriving DecidableEq

structure PatientRecord where
  patientonsetage : Option String := none
  patientonsetageunit : Option String := none
  patientsex : Option String := none
  patientweight : Option String := none
  reaction : Option (List ReactionRecord) := none
  drug : Option (List DrugRecord) := none
deriving DecidableEq

structure EventReport where
  safetyreportid : Option String := none
  receivedate : Option String := none
  serious : Option String := none
  patient : Option PatientRecord := none
deriving DecidableEq

/-- `formatDate` from handlers.ts: insert hyphens into an 8-char date. -/
def formatDate (dateStr : String) : String :=
  if dateStr ≠ "" ∧ dateStr.length = 8 then
    jsSlice dateStr 0 4 ++ "-" ++ jsSlice dateStr 4 6 ++ "-" ++ jsSlice dateStr 6 8
  else dateStr

/-- One mapped report of `handleSearchAdverseEvents`. -/
def searchAdverseEventsRecord (report : EventReport) : Json :=
  .obj [
    ("report_id", optStrJ report.safetyreportid),
    ("receive_date", match report.receivedate with
      | some d => .str (formatDate d)
      | none => .null),
    ("serious", .bool (report.serious = some "1")),
    ("patient", .obj [
      ("age", .str (if jsTruthyStr (report.patient.bind (fun p => p.patientonsetage)) then
          tmplStr (report.patient.bind fun p => p.patientonsetage) ++ " "
            ++ tmplStr (report.patient.bind fun p => p.patientonsetageunit)
        else "Unknown")),
      ("sex", .str (if report.patient.bind (fun p => p.patientsex) = some "1" then "Male"
        else if report.patient.bind (fun p => p.patientsex) = some "2" then "Female"
        else "Unknown")),
      ("weight", .str (if jsTruthyStr (report.patient.bind fun p => p.patientweight) then
          tmplStr (report.patient.bind fun p => p.patientweight) ++ " kg"
        else "Unknown"))]),
    ("reactions", .arr (((report.patient.bind fun p => p.reaction).getD []).map
      fun r => optStrJ r.reactionmeddrapt)),
    ("outcomes", .arr (((report.patient.bind fun p => p.reaction).getD []).map
      fun r => optStrJ r.reactionoutcome)),
    ("drugs", .arr (((report.patient.bind fun p => p.drug).getD []).map fun d =>
      .obj [
        ("name", optStrJ d.medicinalproduct),
        ("indication", optStrJ d.drugindication),
        ("role", .str (if d.drugcharacterization = some "1" then "Suspect"
          else if d.drugcharacterization = some "2" then "Concomitant"
          else "Interacting"))]))]

/-- The result shaping of `handleSearchAdverseEvents` (after the fetch):
an empty result set returns the structured no-results message object,
otherwise the mapped reports — both carrying the FAERS disclaimer. -/
def searchAdverseEventsResponse (drug_name : String)
    (data : FAERSResponse EventReport) : Json :=
  match data.results with
  | none => .obj [
      ("message", .str ("No adverse event reports found for \"" ++ drug_name ++ "\"")),
      ("disclaimer", .str FAERS_DISCLAIMER)]
  | some [] => .obj [
      ("message", .str ("No adverse event reports found for \"" ++ drug_name ++ "\"")),
      ("disclaimer", .str FAERS_DISCLAIMER)]
  | some (r :: rs) => .obj [
      ("total_matching", optNumJ data.metaTotal),
      ("returned", .num ((r :: rs).length)),
      ("results", .arr ((r :: rs).map searchAdverseEventsRecord)),
      ("disclaimer", .str FAERS_DISCLAIMER)]

-- Colour schemes referenced by the embedded visualization hints.

def colorSchemeOutcomes : Json :=
  .obj [("Recovered", .str "#22c55e"), ("Recovering", .str "#84cc16"),
    ("Not recovered", .str "#f59e0b"), ("Recovered with sequelae", .str "#f97316"),
    ("Fatal", .str "#ef4444"), ("Unknown", .str "#9ca3af")]

def colorSchemeSex : Json :=
  .obj [("Male", .str "#3b82f6"), ("Female", .str "#ec4899"),
    ("Unknown", .str "#9ca3af")]

def colorSchemeReporter : Json :=
  .obj [("Physician", .str "#2563eb"), ("Pharmacist", .str "#7c3aed"),
    ("Other health professional", .str "#0891b2"), ("Consumer", .str "#16a34a"),
    ("Lawyer", .str "#dc2626")]

def colorSchemeRecallClassification : Json :=
  .obj [("Class I", .str "#dc2626"), ("Class II", .str "#f59e0b"),
    ("Class III", .str "#22c55e")]

/-- The `visualizationHints` table of `handleGetEventCounts` (indexing a
missing key yields `undefined`, modelled as `null`). -/
def getEventCountsVizHint (group_by drug_name : String) : Json :=
  if group_by = "reaction" then
    .obj [("type", .str "horizontal_bar_chart"), ("x_axis", .str "count"),
      ("y_axis", .str "reaction"),
      ("title", .str ("Top Adverse Events for " ++ drug_name)),
      ("sort", .str "descending")]
  else if group_by = "outcome" then
    .obj [("type", .str "pie_chart"), ("category", .str "outcome"),
      ("value", .str "count"),
      ("title", .str ("Outcome Distribution for " ++ drug_name)),
      ("color_scheme", colorSchemeOutcomes)]
  else if group_by = "sex" then
    .obj [("type", .str "pie_chart"), ("category", .str "sex"),
      ("value", .str "count"),
      ("title", .str ("Patient Sex Distribution for " ++ drug_name)),
      ("color_scheme", colorSchemeSex)]
  else if group_by = "age" then
    .obj [("type", .str "histogram"), ("x_axis", .str "age"),
      ("y_axis", .str "count"),
      ("title", .str ("Patient Age Distribution for " ++ drug_name)),
      ("bin_size", .num 10)]
  else if group_by = "country" then
    .obj [("type", .str "horizontal_bar_chart"), ("x_axis", .str "count"),
      ("y_axis", .str "country"),
      ("title", .str ("Reports by Country for " ++ drug_name)),
      ("sort", .str "descending"), ("max_items", .num 15)]
  else if group_by = "reporter_type" then
    .obj [("type", .str "pie_chart"), ("category", .str "reporter_type"),
      ("value", .str "count"),
      ("title", .str ("Reporter Types for " ++ drug_name)),
      ("color_scheme", colorSchemeReporter)]
  else if group_by = "route" then
    .obj [("type", .str "horizontal_bar_chart"), ("x_axis", .str "count"),
      ("y_axis", .str "route"),
      ("title", .str ("Administration Routes for " ++ drug_name)),
      ("sort", .str "descending")]
  else .null

/-- The result shaping of `handleGetEventCounts` (after the fetch). -/
def getEventCountsResponse (drug_name group_by : String)
    (data : FAERSResponse CountItem) : Json :=
  match data.results with
  | none => .obj [
      ("message", .str ("No data found for \"" ++ drug_name ++ "\" grouped by " ++ group_by)),
      ("disclaimer", .str FAERS_DISCLAIMER)]
  | some [] => .obj [
      ("message", .str ("No data found for \"" ++ drug_name ++ "\" grouped by " ++ group_by)),
      ("disclaimer", .str FAERS_DISCLAIMER)]
  | some (r :: rs) => .obj [
      ("drug", .str drug_name),
      ("grouped_by", .str group_by),
      ("results", .arr ((r :: rs).map fun item =>
        .obj [(group_by, jsvalToJson (eventCountsTerm group_by item.term)),
              ("count", .num item.count)])),
      ("visualization_hint", getEventCountsVizHint group_by drug_name),
      ("disclaimer", .str FAERS_DISCLAIMER)]

/-- Sequential `validateInput` over a list
(`for (const drug of args.drug_names) validateInput(drug)`). -/
def validateAllInputs : List String → Except McpError Unit
  | [] => .ok ()
  | d :: rest => do
      (validateInput d : Except McpError Unit)
      validateAllInputs rest

/-- `handleCompareSafetyProfiles`: 2–5 drug names are required; then one
aggregation query per drug (`fetch`), collected into the `comparisons`
object keyed by drug name; the result object has no no-results branch. -/
def compareSafetyProfilesResponse (drug_names : Option (List String))
    (top_n : Option Nat) (fetch : String → Nat → FAERSResponse CountItem) :
    Except McpError Json := do
  let ds ← match drug_names with
    | none => Except.error (⟨.invalidParams, "Please provide 2-5 drugs to compare"⟩ : McpError)
    | some ds =>
        if ds.length < 2 ∨ 5 < ds.length then
          Except.error (⟨.invalidParams, "Please provide 2-5 drugs to compare"⟩ : McpError)
        else Except.ok ds
  (validateAllInputs ds : Except McpError Unit)
  let topN := jsOrNat top_n 10
  let comparisons := ds.foldl (fun acc drugName =>
    objUpsert acc drugName (.arr ((((fetch drugName topN).results).getD []).map fun item =>
      .obj [("reaction", jsvalToJson item.term), ("count", .num item.count)]))) []
  return .obj [
    ("comparison", .obj comparisons),
    ("visualization_hint", .obj [
      ("type", .str "grouped_bar_chart"), ("group_by", .str "reaction"),
      ("series", .str "drug_name"), ("value", .str "count"),
      ("title", .str "Safety Profile Comparison"), ("x_axis", .str "reaction"),
      ("y_axis", .str "count"), ("legend", .arr (ds.map Json.str))]),
    ("note", .str "Counts are not normalized by usage - a drug with more reports may simply be more widely used"),
    ("disclaimer", .str FAERS_DISCLAIMER)]

-- Drug-label records (exactly the fields `handleGetDrugLabelInfo` reads).

structure OpenFdaRecord where
  brand_name : Option (List String) := none
  generic_name : Option (List String) := none
  manufacturer_name : Option (List String) := none
  product_type : Option (List String) := none
  route : Option (List String) := none
  substance_name : Option (List String) := none
deriving DecidableEq

structure LabelRecord where
  openfda : Option OpenFdaRecord := none
  boxed_warning : Option (List String) := none
  warnings : Option (List String) := none
  warnings_and_cautions : Option (List String) := none
  contraindications : Option (List String) := none
  adverse_reactions : Option (List String) := none
  drug_interactions : Option (List String) := none
  indications_and_usage : Option (List String) := none
  dosage_and_administration : Option (List String) := none
  pregnancy : Option (List String) := none
  pregnancy_or_breast_feeding : Option (List String) := none
  pediatric_use : Option (List String) := none
  geriatric_use : Option (List String) := none
  overdosage : Option (List String) := none
deriving DecidableEq

/-- `section?.[0] || fallback?.[0] || null`. -/
def orNullStr2 (a b : Option (List String)) : Json :=
  match orNullStr (getFirst a) with
  | .null => orNullStr (getFirst b)
  | v => v

/-- The `allSections` object of `handleGetDrugLabelInfo`, in source order. -/
def labelAllSections (label : LabelRecord) : List (String × Json) :=
  [("brand_name", .str (jsOrStr (getFirst (label.openfda.bind fun o => o.brand_name)) "Unknown")),
   ("generic_name", .str (jsOrStr (getFirst (label.openfda.bind fun o => o.generic_name)) "Unknown")),
   ("manufacturer", .str (jsOrStr (getFirst (label.openfda.bind fun o => o.manufacturer_name)) "Unknown")),
   ("product_type", .str (jsOrStr (getFirst (label.openfda.bind fun o => o.product_type)) "Unknown")),
   ("route", .arr (((label.openfda.bind fun o => o.route).getD []).map Json.str)),
   ("substance_name", .arr (((label.openfda.bind fun o => o.substance_name).getD []).map Json.str)),
   ("boxed_warning", orNullStr (getFirst label.boxed_warning)),
   ("warnings", orNullStr2 label.warnings label.warnings_and_cautions),
   ("contraindications", orNullStr (getFirst label.contraindications)),
   ("adverse_reactions", orNullStr (getFirst label.adverse_reactions)),
   ("drug_interactions", orNullStr (getFirst label.drug_interactions)),
   ("indications_and_usage", orNullStr (getFirst label.indications_and_usage)),
   ("dosage_and_administration", orNullStr (getFirst label.dosage_and_administration)),
   ("pregnancy", orNullStr2 label.pregnancy label.pregnancy_or_breast_feeding),
   ("pediatric_use", orNullStr (getFirst label.pediatric_use)),
   ("geriatric_use", orNullStr (getFirst label.geriatric_use)),
   ("overdosage", orNullStr (getFirst label.overdosage))]

/-- `section.toLowerCase().replace(/ /g, "_")`. -/
def sectionKey (s : String) : String :=
  String.mk ((lowerStr s).data.map fun c => if c = ' ' then '_' else c)

/-- Json's null test (`result[key] === null`). -/
def Json.isNull : Json → Bool
  | .null => true
  | _ => false

/-- The `label_info` object: restrict to the requested sections (always
re-adding the two identity fields), then drop null-valued keys. -/
def labelInfoFields (label : LabelRecord) (sections : Option (List String)) :
    List (String × Json) :=
  let allSections := labelAllSections label
  let result :=
    match sections with
    | some (s :: ss) =>
        let picked := (s :: ss).foldl (fun acc sec =>
          let key := sectionKey sec
          match allSections.find? (fun (f : String × Json) => f.1 == key) with
          | some f => objUpsert acc key f.2
          | none => acc) []
        objUpsert (objUpsert picked "brand_name"
            (((allSections.find? (fun (f : String × Json) => f.1 == "brand_name")).map
              (fun (f : String × Json) => f.2)).getD .null))
          "generic_name"
          (((allSections.find? (fun (f : String × Json) => f.1 == "generic_name")).map
            (fun (f : String × Json) => f.2)).getD .null)
    | _ => allSections
  result.filter fun f => ! f.2.isNull

/-- The result shaping of `handleGetDrugLabelInfo`: an upstream error or an
empty result set yields a `{message, suggestion}` object (with no source
attribution); otherwise the shaped label object carries the `source`
attribution string. -/
def getDrugLabelInfoResponse (drug_name : String) (sections : Option (List String))
    (data : FAERSResponse LabelRecord) : Json :=
  if data.error.isSome ∨ data.results = none ∨ data.results = some [] then
    .obj [
      ("message", .str ("No drug label information found for \"" ++ drug_name ++ "\"")),
      ("suggestion", .str "Try searching with the exact brand name or generic name as it appears on the FDA label")]
  else
    match data.results with
    | some (label :: _) => .obj [
        ("drug", .str drug_name),
        ("label_info", .obj (labelInfoFields label sections)),
        ("has_boxed_warning", .bool label.boxed_warning.isSome),
        ("source", .str "FDA Drug Label via OpenFDA API")]
    | _ => .null

-- Recall records (exactly the fields `handleGetRecallInfo` reads).

structure RecallRecord where
  recall_number : Option String := none
  classification : Option String := none
  status : Option String := none
  recall_initiation_date : Option String := none
  report_date : Option String := none
  reason_for_recall : Option String := none
  product_description : Option String := none
  recalling_firm : Option String := none
  distribution_pattern : Option String := none
  voluntary_mandated : Option String := none
  city : Option String := none
  state : Option String := none
  country : Option String := none
deriving DecidableEq

/-- One mapped recall of `handleGetRecallInfo`. -/
def recallRecordJson (rc : RecallRecord) : Json :=
  .obj [
    ("recall_number", optStrJ rc.recall_number),
    ("classification", optStrJ rc.classification),
    ("classification_description", .str (if rc.classification = some "Class I" then
        "Most serious - may cause death or serious health problems"
      else if rc.classification = some "Class II" then
        "May cause temporary or reversible health problems"
      else "Unlikely to cause adverse health consequences")),
    ("status", optStrJ rc.status),
    ("recall_initiation_date", optStrJ rc.recall_initiation_date),
    ("report_date", optStrJ rc.report_date),
    ("reason_for_recall", optStrJ rc.reason_for_recall),
    ("product_description", optStrJ rc.product_description),
    ("recalling_firm", optStrJ rc.recalling_firm),
    ("distribution_pattern", optStrJ rc.distribution_pattern),
    ("voluntary_mandated", optStrJ rc.voluntary_mandated),
    ("city", optStrJ rc.city),
    ("state", optStrJ rc.state),
    ("country", optStrJ rc.country)]

/-- JS object counter increment `counts[k] = (counts[k] || 0) + 1`
(an undefined key string becomes `"undefined"`). -/
def incCount (l : List (String × Nat)) (k : String) : List (String × Nat) :=
  match l with
  | [] => [(k, 1)]
  | (k2, n) :: rest =>
      if k2 = k then (k2, n + 1) :: rest else (k2, n) :: incCount rest k

/-- The result shaping of `handleGetRecallInfo`: an upstream error or an
empty result set yields a `{message, note}` object (with no source
attribution); otherwise the recall list with classification summary and the
`source` attribution string. -/
def getRecallInfoResponse (drug_name : String)
    (data : FAERSResponse RecallRecord) : Json :=
  if data.error.isSome ∨ data.results = none ∨ data.results = some [] then
    .obj [
      ("message", .str ("No recall information found for \"" ++ drug_name ++ "\"")),
      ("note", .str "This may mean the drug has not been recalled, or the search term doesn't match FDA records")]
  else
    match data.results with
    | some (r :: rs) =>
        let recalls := r :: rs
        let classificationCounts := recalls.foldl (fun acc rc =>
          incCount acc (match rc.classification with
            | some c => c
            | none => "undefined")) []
        .obj [
          ("drug", .str drug_name),
          ("total_recalls", .num (jsOrNat data.metaTotal recalls.length)),
          ("returned", .num recalls.length),
          ("classification_summary", .obj (classificationCounts.map fun kc =>
            (kc.1, Json.num kc.2))),
          ("recalls", .arr (recalls.map recallRecordJson)),
          ("visualization_hint", .obj [
            ("type", .str "timeline"),
            ("x_axis", .str "recall_initiation_date"),
            ("label", .str "reason_for_recall"),
            ("title", .str ("Recall History for " ++ drug_name)),
            ("color_by", .str "classification"),
            ("color_scheme", colorSchemeRecallClassification),
            ("secondary_chart", .obj [
              ("type", .str "pie_chart"),
              ("category", .str "classification"),
              ("value", .str "count"),
              ("title", .str "Recalls by Classification"),
              ("data", .arr (classificationCounts.map fun kc =>
                Json.obj [("classification", .str kc.1), ("count", .num kc.2)])),
              ("color_scheme", colorSchemeRecallClassification)])]),
          ("source", .str "FDA Enforcement Reports via OpenFDA API")]
    | _ => .null

def exceptIsOk : Except McpError Json → Bool
  | .ok _ => true
  | .error _ => false

def exceptField (e : Except McpError Json) (k : String) : Option Json :=
  match e with
  | .ok j => j.getField k
  | .error _ => none

-- ===========================================================================
-- C9: reporting-trend aggregation (`handleGetReportingTrends`)
-- ===========================================================================

/-- `Math.ceil` on an exact rational. -/
def jsCeil (q : ℚ) : ℤ := ⌈q⌉

/-- Digit-string value (`parseInt` on the digit strings involved). -/
def natOfDigits (l : List Char) : Nat :=
  l.foldl (fun acc c => acc * 10 + (c.toNat - 48)) 0

def parseIntNat (s : String) : Nat := natOfDigits s.data

/-- A `{time?, term?, count}` record of the `count=receivedate` query. -/
structure TrendItem where
  time : Option String := none
  term : Option Int := none
  count : Nat := 0
deriving DecidableEq

/-- `const dateStr = item.time || item.term?.toString(); if (!dateStr) continue`. -/
def dateStrOf (it : TrendItem) : Option String :=
  let raw :=
    match it.time with
    | some t => if t = "" then it.term.map toString else some t
    | none => it.term.map toString
  match raw with
  | some d => if d = "" then none else some d
  | none => none

/-- The per-item period label: `year`, `month`, or (default) quarter with
`Math.ceil(parseInt(month) / 3)`. -/
def trendPeriod (granularity : String) (dateStr : String) : String :=
  let year := jsSlice dateStr 0 4
  let month := jsSlice dateStr 4 6
  if granularity = "year" then year
  else if granularity = "month" then year ++ "-" ++ month
  else year ++ "-Q" ++ toString (jsCeil ((parseIntNat month : ℚ) / 3))

/-- `aggregated[period] = (aggregated[period] || 0) + item.count` on a JS
object (insertion-ordered keys). -/
def aggUpd (agg : List (String × Nat)) (k : String) (c : Nat) :
    List (String × Nat) :=
  match agg with
  | [] => [(k, c)]
  | (k2, c2) :: rest =>
      if k2 = k then (k2, c2 + c) :: rest else (k2, c2) :: aggUpd rest k c

/-- `a.localeCompare(b) ≤ 0` modelled as code-point lexicographic order
(the labels involved are ASCII digits, `-` and `Q`). -/
def lexLe : List Char → List Char → Bool
  | [], _ => true
  | _ :: _, [] => false
  | a :: as, b :: bs =>
      if a.toNat < b.toNat then true
      else if b.toNat < a.toNat then false
      else lexLe as bs

/-- Sort order on `{period, count}` pairs: lexicographic on the label. -/
def trendRel (a b : String × Nat) : Prop := lexLe a.1.data b.1.data = true

instance : DecidableRel trendRel := fun a b => by
  unfold trendRel; infer_instance

/-- The trend aggregation of `handleGetReportingTrends`: fold the daily
records into the period-keyed object, then
`Object.entries(aggregated).sort(([a], [b]) => a.localeCompare(b))`. -/
def reportingTrends (granularity : String) (items : List TrendItem) :
    List (String × Nat) :=
  let aggregated := items.foldl (fun agg it =>
    match dateStrOf it with
    | none => agg
    | some d => aggUpd agg (trendPeriod granularity d) it.count) []
  aggregated.insertionSort trendRel

/-- Total count carried by bucket `p` in an association list. -/
def sumFor (l : List (String × Nat)) (p : String) : Nat :=
  ((l.filter fun e => e.1 == p).map fun e => e.2).sum

/-- Direct per-bucket total over the daily records. -/
def bucketTotal (granularity : String) (items : List TrendItem) (p : String) :
    Nat :=
  (items.map fun it =>
    match dateStrOf it with
    | some d => if trendPeriod granularity d = p then it.count else 0
    | none => 0).sum

-- Well-formed 8-digit dates and their year/month/quarter values.

/-- An upstream `receivedate` value: eight ASCII digits. -/
def wfDate (d : String) : Prop :=
  d.data.length = 8 ∧ ∀ c ∈ d.data, 48 ≤ c.toNat ∧ c.toNat ≤ 57

instance (d : String) : Decidable (wfDate d) := by
  unfold wfDate; infer_instance

def yearNum (d : String) : Nat := natOfDigits (d.data.take 4)

def monthNum (d : String) : Nat := natOfDigits ((d.data.drop 4).take 2)

/-- `⌈month / 3⌉` as a natural number. -/
def quarterNum (d : String) : Nat := (monthNum d + 2) / 3

-- ===========================================================================
-- THEOREMS
-- ===========================================================================

theorem data_append (s t : String) : (s ++ t).data = s.data ++ t.data := rfl

theorem string_ext {a b : String} (h : a.data = b.data) : a = b := by
  cases a; cases b; exact congrArg String.mk (by simpa using h)

theorem strAppend_assoc (a b c : String) : a ++ b ++ c = a ++ (b ++ c) :=
  string_ext (by simp [data_append])

/-- C5: the builder output coincides with the three-clause decomposition. -/
theorem buildDrugSearch_eq_spec (n : String) (h : n ≠ "") :
    buildDrugSearch n = specDrugSearch n := by
  apply string_ext
  simp [buildDrugSearch, specDrugSearch, specFieldClause, data_append]

theorem buildDrugSearch_eq_spec_witness :
    ("aspirin" : String) ≠ "" ∧ buildDrugSearch "aspirin" = specDrugSearch "aspirin" :=
  ⟨by decide, buildDrugSearch_eq_spec "aspirin" (by decide)⟩

-- ===========================================================================
-- C1: numeric limit 0 / 200 on search_adverse_events
-- ===========================================================================

/-- C1: contrary to the claim (and to the repository's own test contract in
`tests/server.test.ts`, which expects `limit: 0` and `limit: 200` to be
rejected with an error mentioning "limit"), `handleSearchAdverseEvents`
silently proceeds: `limit: 200` is clamped to the maximum 100 and
`limit: 0` falls through to the default 10, and the fetch is issued. -/
theorem searchAdverseEvents_limit_clamped_not_rejected :
    searchAdverseEventsPrepare "aspirin" none none none false (some 200)
      = .ok { search := some (buildDrugSearch "aspirin"), limit := some 100 }
    ∧ searchAdverseEventsPrepare "aspirin" none none none false (some 0)
      = .ok { search := some (buildDrugSearch "aspirin"), limit := some 10 } := by
  exact ⟨rfl, rfl⟩

-- ===========================================================================
-- C2: unrecognized group-by / classification enum values
-- ===========================================================================

/-- C2 counterexample: `search_by_indication` with the unknown `group_by`
value `"bogus"` is not rejected — the handler silently falls through to the
drug grouping and issues the HTTP request; likewise `get_recall_info`
interpolates the unknown classification `"Class IV"` into the query and
issues the request. -/
theorem unknownEnum_not_rejected_counterexample :
    searchByIndicationPrepare "diabetes" (some "bogus") none
      = .ok { search := some "patient.drug.drugindication:\"diabetes\"",
              count := some "patient.drug.openfda.brand_name.exact",
              limit := some 20 }
    ∧ getRecallInfoPrepare "aspirin" (some "Class IV") none none
      = .ok { search := some ("(product_description:\"aspirin\"+OR+openfda.brand_name:\"aspirin\"+OR+openfda.generic_name:\"aspirin\")+AND+classification:\"Class IV\""),
              limit := some 10 } := by
  exact ⟨rfl, rfl⟩

/-- C2 (amended): only `get_event_counts` rejects an unrecognized `group_by`
with a client-fault `InvalidParams` error before any HTTP request;
`search_by_indication` treats every `group_by` other than `"reaction"` as
the drug grouping and proceeds to fetch, and `get_recall_info` interpolates
any classification string unvalidated and proceeds to fetch. -/
theorem unknownEnum_rejection_boundary (d g i : String) (l : Option Nat)
    (hd : d ≠ "") (hi : i ≠ "") (hg : countFieldMap g = none) :
    getEventCountsPrepare d g l
      = .error ⟨.invalidParams, "Invalid group_by field: " ++ g⟩
    ∧ (g ≠ "reaction" → searchByIndicationPrepare i (some g) l
        = .ok { search := some ("patient.drug.drugindication:\"" ++ escapeQuotes i ++ "\""),
                count := some "patient.drug.openfda.brand_name.exact",
                limit := some (jsOrNat l 20) })
    ∧ (∀ st, getRecallInfoPrepare d (some g) st l
        = .ok { search := some
                  (match st with
                   | some s => "(product_description:\"" ++ escapeQuotes d
                       ++ "\"+OR+openfda.brand_name:\"" ++ escapeQuotes d
                       ++ "\"+OR+openfda.generic_name:\"" ++ escapeQuotes d ++ "\")"
                       ++ "+AND+classification:\"" ++ g ++ "\""
                       ++ "+AND+status:\"" ++ s ++ "\""
                   | none => "(product_description:\"" ++ escapeQuotes d
                       ++ "\"+OR+openfda.brand_name:\"" ++ escapeQuotes d
                       ++ "\"+OR+openfda.generic_name:\"" ++ escapeQuotes d ++ "\")"
                       ++ "+AND+classification:\"" ++ g ++ "\""),
                limit := some (jsOrNat l 10) }) := by
  refine ⟨?_, ?_, ?_⟩
  · simp only [getEventCountsPrepare, validateInput, if_neg hd, hg]
    rfl
  · intro hgr
    by_cases hge : g = ""
    · simp [searchByIndicationPrepare, validateInput, hi, jsOrStr, hge]
    · simp [searchByIndicationPrepare, validateInput, hi, jsOrStr, hge, hgr]
  · intro st
    cases st <;> simp [getRecallInfoPrepare, validateInput, hd]

theorem unknownEnum_rejection_boundary_witness :
    getEventCountsPrepare "aspirin" "bogus" none
      = .error ⟨.invalidParams, "Invalid group_by field: bogus"⟩ := by
  have h := unknownEnum_rejection_boundary "aspirin" "bogus" "diabetes" none
    (by decide) (by decide) (by decide)
  exact h.1

-- ===========================================================================
-- C3: coded-enum label substitution in aggregation results
-- ===========================================================================

/-- C3 counterexample: for the sex dimension, an unmapped code is not
passed through as the raw term — `handleGetEventCounts` renders code `0`
as the label `"Unknown"`; and `handleGetSafetySummary` renders an unmapped
outcome code `9` as `"Code 9"` rather than the raw term. -/
theorem codedEnum_unmapped_not_raw_counterexample :
    eventCountsTerm "sex" (.num 0) = .str "Unknown"
    ∧ JsVal.str "Unknown" ≠ JsVal.num 0
    ∧ safetySummaryOutcome 9 = "Code 9" := by
  refine ⟨rfl, by decide, rfl⟩

/-- C3 (amended): mapped codes are always replaced by their human-readable
labels (sex 1/2 → Male/Female, outcome 5 → Fatal, reporter 1–5 → roles);
unmapped codes pass through as the raw term only for the `outcome` and
`reporter_type` dimensions of `get_event_counts` — unmapped sex codes
become `"Unknown"` and unmapped outcome codes in `get_safety_summary`
become `"Code <n>"`. -/
theorem codedEnum_decoding (t : Int) :
    eventCountsTerm "sex" (.num 1) = .str "Male"
    ∧ eventCountsTerm "sex" (.num 2) = .str "Female"
    ∧ (t ≠ 1 → t ≠ 2 → eventCountsTerm "sex" (.num t) = .str "Unknown")
    ∧ eventCountsTerm "outcome" (.num 5) = .str "Fatal"
    ∧ (∀ lb, outcomeLabel t = some lb → eventCountsTerm "outcome" (.num t) = .str lb)
    ∧ (outcomeLabel t = none → eventCountsTerm "outcome" (.num t) = .num t)
    ∧ (∀ lb, reporterLabel t = some lb → eventCountsTerm "reporter_type" (.num t) = .str lb)
    ∧ (reporterLabel t = none → eventCountsTerm "reporter_type" (.num t) = .num t)
    ∧ (∀ lb, outcomeLabel t = some lb → safetySummaryOutcome t = lb)
    ∧ (outcomeLabel t = none → safetySummaryOutcome t = "Code " ++ toString t) := by
  refine ⟨rfl, rfl, ?_, rfl, ?_, ?_, ?_, ?_, ?_, ?_⟩
  · intro h1 h2
    simp [eventCountsTerm, h1, h2]
  · intro lb hlb
    simp [eventCountsTerm, hlb]
  · intro hlb
    simp [eventCountsTerm, hlb]
  · intro lb hlb
    simp [eventCountsTerm, hlb]
  · intro hlb
    simp [eventCountsTerm, hlb]
  · intro lb hlb
    simp [safetySummaryOutcome, hlb]
  · intro hlb
    simp [safetySummaryOutcome, hlb]

theorem codedEnum_decoding_witness :
    eventCountsTerm "sex" (.num 0) = .str "Unknown"
    ∧ eventCountsTerm "outcome" (.num 7) = .num 7 := by
  refine ⟨(codedEnum_decoding 0).2.2.1 (by decide) (by decide), ?_⟩
  exact (codedEnum_decoding 7).2.2.2.2.2.1 (by decide)

/-- C4 counterexample: the geriatric comparison does not render a rounded
integer ratio string — with 1 geriatric and 2 younger-adult reports the
rendered ratio is the fractional `"0.5:1"`. -/
theorem geriatricRatio_not_integer_counterexample :
    geriatricReportRatio 1 2 = "0.5:1"
    ∧ ("0.5:1" : String).data.contains '.' = true
    ∧ ∀ c ∈ "N/A".data ++ "1:2".data, c ≠ '.' := by
  refine ⟨?_, by decide, by decide⟩
  norm_num [geriatricReportRatio, jsRound, formatHundredths]
  decide

theorem strAppend_colonOne_ne_NA (s : String) : s ++ ":1" ≠ "N/A" := by
  intro h
  have hd := congrArg String.data h
  simp only [data_append] at hd
  rcases s with ⟨l⟩
  rcases l with _ | ⟨c, _ | ⟨c2, _ | ⟨c3, rest⟩⟩⟩ <;> simp_all

theorem strAppend_oneColon_ne_NA (s : String) : "1:" ++ s ≠ "N/A" := by
  intro h
  have hd := congrArg String.data h
  simp only [data_append] at hd
  simp at hd

/-- C4 (amended): the comparison handlers compute set differences of
reaction labels by exact match; a zero total on either side yields the
literal `"N/A"` (and only then); the pediatric handler renders the
population ratio as a rounded integer ratio string `1:n`, while the
geriatric handler renders it rounded to two decimal places as `x:1`
(possibly fractional). -/
theorem comparisonRatios_spec (ped adult ger yAdult : Nat)
    (xs ys : List ReactionCount) :
    (pediatricReportRatio ped adult = "N/A" ↔ ped = 0 ∨ adult = 0)
    ∧ (geriatricReportRatio ger yAdult = "N/A" ↔ ger = 0 ∨ yAdult = 0)
    ∧ (0 < ped → 0 < adult →
        ∃ n : ℕ, pediatricReportRatio ped adult = "1:" ++ toString n
          ∧ (n : ℤ) = jsRound ((adult : ℚ) / (ped : ℚ)))
    ∧ (0 < ger → 0 < yAdult → geriatricReportRatio ger yAdult
        = formatHundredths (jsRound ((ger : ℚ) / (yAdult : ℚ) * 100)) ++ ":1")
    ∧ (∀ r, r ∈ uniqueAgainst xs ys ↔
        r ∈ xs ∧ ∀ y ∈ ys, y.reaction ≠ r.reaction) := by
  refine ⟨?_, ?_, ?_, ?_, ?_⟩
  · constructor
    · intro h
      by_contra hab
      push_neg at hab
      have hp : 0 < ped := Nat.pos_of_ne_zero hab.1
      have ha : 0 < adult := Nat.pos_of_ne_zero hab.2
      rw [pediatricReportRatio, if_pos ⟨hp, ha⟩] at h
      exact strAppend_oneColon_ne_NA _ h
    · intro h
      rw [pediatricReportRatio, if_neg]
      rintro ⟨hp, ha⟩
      rcases h with h | h <;> omega
  · constructor
    · intro h
      by_contra hab
      push_neg at hab
      have hp : 0 < ger := Nat.pos_of_ne_zero hab.1
      have ha : 0 < yAdult := Nat.pos_of_ne_zero hab.2
      rw [geriatricReportRatio, if_pos ⟨hp, ha⟩] at h
      exact strAppend_colonOne_ne_NA _ h
    · intro h
      rw [geriatricReportRatio, if_neg]
      rintro ⟨hp, ha⟩
      rcases h with h | h <;> omega
  · intro hp ha
    have hq : (0 : ℚ) ≤ (adult : ℚ) / (ped : ℚ) := by positivity
    have hnn : 0 ≤ jsRound ((adult : ℚ) / (ped : ℚ)) := by
      rw [jsRound]
      have : (0 : ℚ) ≤ (adult : ℚ) / (ped : ℚ) + 1 / 2 := by linarith
      exact Int.floor_nonneg.mpr this
    refine ⟨(jsRound ((adult : ℚ) / (ped : ℚ))).toNat, ?_, by omega⟩
    rw [pediatricReportRatio, if_pos ⟨hp, ha⟩]
    congr 1
    rw [← Int.toNat_of_nonneg hnn]
    rfl
  · intro hp ha
    rw [geriatricReportRatio, if_pos ⟨hp, ha⟩]
  · intro r
    constructor
    · intro hr
      have hmem := List.mem_of_mem_filter hr
      have hprop := List.of_mem_filter hr
      refine ⟨hmem, ?_⟩
      intro y hy hcontra
      simp only [Bool.not_eq_true', List.any_eq_false] at hprop
      exact absurd (by simpa using hcontra) (by simpa using hprop y hy)
    · rintro ⟨hmem, hok⟩
      refine List.mem_filter.mpr ⟨hmem, ?_⟩
      simp only [Bool.not_eq_true', List.any_eq_false]
      intro y hy
      simpa using hok y hy

theorem comparisonRatios_spec_witness :
    pediatricReportRatio 0 5 = "N/A"
    ∧ (∃ n : ℕ, pediatricReportRatio 2 5 = "1:" ++ toString n
        ∧ (n : ℤ) = jsRound ((5 : ℚ) / (2 : ℚ)))
    ∧ geriatricReportRatio 1 2
        = formatHundredths (jsRound ((1 : ℚ) / (2 : ℚ) * 100)) ++ ":1"
    ∧ (⟨"Pyrexia", 3⟩ ∈ uniqueAgainst [⟨"Pyrexia", 3⟩] [⟨"Nausea", 7⟩] ↔
        (⟨"Pyrexia", 3⟩ : ReactionCount) ∈ [(⟨"Pyrexia", 3⟩ : ReactionCount)]
          ∧ ∀ y ∈ [(⟨"Nausea", 7⟩ : ReactionCount)], y.reaction ≠ "Pyrexia") := by
  refine ⟨?_, ?_, ?_, ?_⟩
  · exact (comparisonRatios_spec 0 5 1 2 [] []).1.mpr (Or.inl rfl)
  · exact (comparisonRatios_spec 2 5 1 2 [] []).2.2.1 (by norm_num) (by norm_num)
  · exact (comparisonRatios_spec 2 5 1 2 [] []).2.2.2.1 (by norm_num) (by norm_num)
  · exact (comparisonRatios_spec 2 5 1 2 [⟨"Pyrexia", 3⟩] [⟨"Nausea", 7⟩]).2.2.2.2 ⟨"Pyrexia", 3⟩

/-- C10: no returned concomitant entry contains the primary drug name as a
case-insensitive substring; the list holds at most `limit` (default 20)
entries; and `limit + 5` records are requested upstream. -/
theorem concomitantDrugs_spec (drug_name : String) (limit : Option Nat)
    (results : List TermCount) :
    (∀ item ∈ concomitantDrugs drug_name limit results,
      containsSub (lowerStr drug_name).data (lowerStr item.term).data = false)
    ∧ (concomitantDrugs drug_name limit results).length ≤ jsOrNat limit 20
    ∧ (drug_name ≠ "" → getConcomitantDrugsPrepare drug_name limit
        = .ok { search := some (buildDrugSearch drug_name),
                count := some "patient.drug.openfda.brand_name.exact",
                limit := some (jsOrNat limit 20 + 5) }) := by
  refine ⟨?_, ?_, ?_⟩
  · intro item hitem
    have hmem : item ∈ results.filter fun it =>
        ! containsSub (lowerStr drug_name).data (lowerStr it.term).data :=
      List.mem_of_mem_take hitem
    have := List.of_mem_filter hmem
    simpa using this
  · simp only [concomitantDrugs]
    exact List.length_take_le _ _
  · intro hne
    simp [getConcomitantDrugsPrepare, validateInput, hne]

theorem concomitantDrugs_spec_witness :
    containsSub (lowerStr "aspirin").data (lowerStr "Tylenol").data = false
    ∧ getConcomitantDrugsPrepare "aspirin" none
      = .ok { search := some (buildDrugSearch "aspirin"),
              count := some "patient.drug.openfda.brand_name.exact",
              limit := some 25 } := by
  constructor
  · exact (concomitantDrugs_spec "aspirin" none
      [⟨"ASPIRIN TABLETS", 5⟩, ⟨"Tylenol", 3⟩]).1 ⟨"Tylenol", 3⟩ (by decide)
  · exact (concomitantDrugs_spec "aspirin" none []).2.2 (by decide)

/-- C6: an unregistered tool name is rejected with a MethodNotFound error
whose message contains "unknown tool" case-insensitively and ends with the
offending name, and no network request is attempted regardless of what the
handlers would fetch. -/
theorem handleTool_unknown (name : String) (hname : name ∉ toolNames) :
    handleTool name = .error ⟨.methodNotFound, "Unknown tool: " ++ name⟩
    ∧ containsSub "unknown tool".data (lowerStr ("Unknown tool: " ++ name)).data = true
    ∧ name.data <:+ ("Unknown tool: " ++ name).data
    ∧ ∀ plan, handleToolFetches name plan = 0 := by
  simp only [toolNames, List.mem_cons, List.not_mem_nil, or_false, not_or] at hname
  obtain ⟨h1, h2, h3, h4, h5, h6, h7, h8, h9, h10, h11, h12, h13, h14, h15, h16, h17⟩ := hname
  have hdisp : handleTool name = .error ⟨.methodNotFound, "Unknown tool: " ++ name⟩ := by
    simp [handleTool, h1, h2, h3, h4, h5, h6, h7, h8, h9, h10, h11, h12, h13, h14,
      h15, h16, h17]
  refine ⟨hdisp, ?_, ?_, ?_⟩
  · have hlow : (lowerStr ("Unknown tool: " ++ name)).data
        = "unknown tool: ".data ++ (lowerStr name).data := by
      simp [lowerStr, data_append]
    rw [hlow]
    have hpre : "unknown tool".data.isPrefixOf
        ("unknown tool: ".data ++ (lowerStr name).data) = true := by
      have : "unknown tool: ".data ++ (lowerStr name).data
          = "unknown tool".data ++ (": ".data ++ (lowerStr name).data) := by
        simp
      rw [this]
      exact List.isPrefixOf_iff_prefix.mpr (List.prefix_append _ _)
    cases hcase : "unknown tool: ".data ++ (lowerStr name).data with
    | nil => simp at hcase
    | cons c rest =>
        rw [hcase] at hpre
        simp [containsSub, hpre]
  · exact List.suffix_append _ _
  · intro plan
    simp [handleToolFetches, hdisp]

theorem handleTool_unknown_witness :
    handleTool "unknown_tool"
      = .error ⟨.methodNotFound, "Unknown tool: unknown_tool"⟩ := by
  exact (handleTool_unknown "unknown_tool" (by decide)).1

-- ===========================================================================
-- C7: empty upstream result sets
-- ===========================================================================

/-- C7 counterexample: `compare_safety_profiles` with empty upstream result
sets succeeds but returns its ordinary comparison object (empty lists per
drug) — not a structured "no results" message object. -/
theorem compareSafetyProfiles_empty_no_message_counterexample :
    exceptIsOk (compareSafetyProfilesResponse (some ["drugA", "drugB"]) none
      (fun _ _ => { results := some [] })) = true
    ∧ exceptField (compareSafetyProfilesResponse (some ["drugA", "drugB"]) none
      (fun _ _ => { results := some [] })) "message" = none
    ∧ exceptField (compareSafetyProfilesResponse (some ["drugA", "drugB"]) none
      (fun _ _ => { results := some [] })) "comparison"
      = some (.obj [("drugA", .arr []), ("drugB", .arr [])]) := by
  exact ⟨rfl, rfl, rfl⟩

/-- C7 (amended): the handlers with a dedicated no-results branch — here the
two cited, `search_adverse_events` and `get_event_counts` — return a
structured message object (never an error) on an empty upstream result
set; the comparison/summary handlers instead return their ordinary
structure with empty sub-lists, also without error. -/
theorem emptyResults_message_object (drug group_by : String)
    (dataE : FAERSResponse EventReport) (dataC : FAERSResponse CountItem)
    (hE : dataE.results = none ∨ dataE.results = some [])
    (hC : dataC.results = none ∨ dataC.results = some []) :
    searchAdverseEventsResponse drug dataE
      = .obj [("message", .str ("No adverse event reports found for \"" ++ drug ++ "\"")),
              ("disclaimer", .str FAERS_DISCLAIMER)]
    ∧ getEventCountsResponse drug group_by dataC
      = .obj [("message", .str ("No data found for \"" ++ drug ++ "\" grouped by " ++ group_by)),
              ("disclaimer", .str FAERS_DISCLAIMER)] := by
  obtain ⟨mtE, resE, errE⟩ := dataE
  obtain ⟨mtC, resC, errC⟩ := dataC
  simp only at hE hC
  rcases hE with hE | hE <;> rcases hC with hC | hC <;> subst hE <;> subst hC <;>
    exact ⟨rfl, rfl⟩

theorem emptyResults_message_object_witness :
    searchAdverseEventsResponse "aspirin" {}
      = .obj [("message", .str "No adverse event reports found for \"aspirin\""),
              ("disclaimer", .str FAERS_DISCLAIMER)]
    ∧ getEventCountsResponse "aspirin" "sex" { results := some [] }
      = .obj [("message", .str "No data found for \"aspirin\" grouped by sex"),
              ("disclaimer", .str FAERS_DISCLAIMER)] := by
  have h := emptyResults_message_object "aspirin" "sex" {} { results := some [] }
    (Or.inl rfl) (Or.inr rfl)
  exact h

-- ===========================================================================
-- C8: disclaimer / source attribution
-- ===========================================================================

/-- C8 counterexample: the no-results branch of the label-sourced
`get_drug_label_info` carries only `message` and `suggestion` — no `source`
attribution string. -/
theorem labelNoResults_no_source_counterexample :
    getDrugLabelInfoResponse "aspirin" none { results := some [] }
      = .obj [("message", .str "No drug label information found for \"aspirin\""),
              ("suggestion", .str "Try searching with the exact brand name or generic name as it appears on the FDA label")]
    ∧ (getDrugLabelInfoResponse "aspirin" none
        { results := some ([] : List LabelRecord) }).getField "source" = none := by
  exact ⟨rfl, rfl⟩

/-- C8 (amended): every embedded FAERS-sourced response carries the fixed
disclaimer verbatim (which contains "IMPORTANT" and "NOT prove"), and the
successful label- or recall-sourced responses carry a `source` attribution
string, but their no-results branches carry none. -/
theorem disclaimer_and_source_attribution (drug group_by : String)
    (sections : Option (List String))
    (dataE : FAERSResponse EventReport) (dataC : FAERSResponse CountItem)
    (dataL : FAERSResponse LabelRecord) (dataR : FAERSResponse RecallRecord)
    (ds : Option (List String)) (tn : Option Nat)
    (fetch : String → Nat → FAERSResponse CountItem) :
    containsSub "IMPORTANT".data FAERS_DISCLAIMER.data = true
    ∧ containsSub "NOT prove".data FAERS_DISCLAIMER.data = true
    ∧ (searchAdverseEventsResponse drug dataE).getField "disclaimer"
        = some (.str FAERS_DISCLAIMER)
    ∧ (getEventCountsResponse drug group_by dataC).getField "disclaimer"
        = some (.str FAERS_DISCLAIMER)
    ∧ (∀ j, compareSafetyProfilesResponse ds tn fetch = .ok j →
        j.getField "disclaimer" = some (.str FAERS_DISCLAIMER))
    ∧ (dataL.error = none → ∀ lb rest, dataL.results = some (lb :: rest) →
        (getDrugLabelInfoResponse drug sections dataL).getField "source"
          = some (.str "FDA Drug Label via OpenFDA API"))
    ∧ (dataR.error = none → ∀ rc rest, dataR.results = some (rc :: rest) →
        (getRecallInfoResponse drug dataR).getField "source"
          = some (.str "FDA Enforcement Reports via OpenFDA API")) := by
  refine ⟨rfl, rfl, ?_, ?_, ?_, ?_, ?_⟩
  · obtain ⟨mt, res, err⟩ := dataE
    rcases res with _ | ⟨_ | ⟨r, rs⟩⟩ <;> rfl
  · obtain ⟨mt, res, err⟩ := dataC
    rcases res with _ | ⟨_ | ⟨r, rs⟩⟩ <;> rfl
  · intro j hj
    rcases ds with _ | ds
    · exact absurd hj (by simp [compareSafetyProfilesResponse, bind, Except.bind])
    · simp only [compareSafetyProfilesResponse, bind, Except.bind] at hj
      by_cases hlen : ds.length < 2 ∨ 5 < ds.length
      · rw [if_pos hlen] at hj
        cases hj
      · rw [if_neg hlen] at hj
        cases hv : validateAllInputs ds with
        | error e => rw [hv] at hj; cases hj
        | ok u =>
            rw [hv] at hj
            simp only [Functor.map, Except.map, pure, Except.pure, Except.ok.injEq] at hj
            subst hj
            rfl
  · intro herr lb rest hres
    obtain ⟨mt, res, err⟩ := dataL
    simp only at herr hres
    subst herr; subst hres
    rfl
  · intro herr rc rest hres
    obtain ⟨mt, res, err⟩ := dataR
    simp only at herr hres
    subst herr; subst hres
    rfl

theorem disclaimer_and_source_attribution_witness :
    (getDrugLabelInfoResponse "aspirin" none
        { results := some [({} : LabelRecord)] }).getField "source"
      = some (.str "FDA Drug Label via OpenFDA API")
    ∧ (getRecallInfoResponse "aspirin"
        { results := some [({} : RecallRecord)] }).getField "source"
      = some (.str "FDA Enforcement Reports via OpenFDA API")
    ∧ exceptField (compareSafetyProfilesResponse (some ["a", "b"]) none
        (fun _ _ => {})) "disclaimer" = some (.str FAERS_DISCLAIMER) := by
  have h := disclaimer_and_source_attribution "aspirin" "sex" none {} {}
    { results := some [({} : LabelRecord)] }
    { results := some [({} : RecallRecord)] }
    (some ["a", "b"]) none (fun _ _ => {})
  refine ⟨h.2.2.2.2.2.1 rfl {} [] rfl, h.2.2.2.2.2.2 rfl {} [] rfl, ?_⟩
  have hok : ∀ j, compareSafetyProfilesResponse (some ["a", "b"]) none
      (fun _ _ => {}) = .ok j → j.getField "disclaimer" = some (.str FAERS_DISCLAIMER) :=
    h.2.2.2.2.1
  exact hok _ rfl

theorem lexLe_total : ∀ a b : List Char, lexLe a b = true ∨ lexLe b a = true
  | [], _ => Or.inl rfl
  | _ :: _, [] => Or.inr rfl
  | a :: as, b :: bs => by
      simp only [lexLe]
      rcases Nat.lt_trichotomy a.toNat b.toNat with h | h | h
      · left; rw [if_pos h]
      · rcases lexLe_total as bs with ih | ih
        · left; rw [if_neg (by omega), if_neg (by omega)]; exact ih
        · right; rw [if_neg (by omega), if_neg (by omega)]; exact ih
      · right; rw [if_pos h]

theorem lexLe_trans : ∀ a b c : List Char,
    lexLe a b = true → lexLe b c = true → lexLe a c = true
  | [], _, _, _, _ => rfl
  | _ :: _, [], _, hab, _ => by simp [lexLe] at hab
  | _ :: _, _ :: _, [], _, hbc => by simp [lexLe] at hbc
  | a :: as, b :: bs, c :: cs, hab, hbc => by
      simp only [lexLe] at hab hbc ⊢
      rcases Nat.lt_trichotomy a.toNat b.toNat with h1 | h1 | h1
      · rcases Nat.lt_trichotomy b.toNat c.toNat with h2 | h2 | h2
        · rw [if_pos (by omega)]
        · rw [if_pos (by omega)]
        · rw [if_neg (by omega), if_pos h2] at hbc
          exact absurd hbc (by simp)
      · rcases Nat.lt_trichotomy b.toNat c.toNat with h2 | h2 | h2
        · rw [if_pos (by omega)]
        · rw [if_neg (by omega), if_neg (by omega)] at hab hbc ⊢
          exact lexLe_trans as bs cs hab hbc
        · rw [if_neg (by omega), if_pos h2] at hbc
          exact absurd hbc (by simp)
      · rw [if_neg (by omega), if_pos h1] at hab
        exact absurd hab (by simp)

instance : IsTotal (String × Nat) trendRel :=
  ⟨fun a b => lexLe_total a.1.data b.1.data⟩

instance : IsTrans (String × Nat) trendRel :=
  ⟨fun a b c => lexLe_trans a.1.data b.1.data c.1.data⟩

theorem sumFor_cons (a : String) (b : Nat) (l : List (String × Nat))
    (p : String) :
    sumFor ((a, b) :: l) p = (if a = p then b else 0) + sumFor l p := by
  by_cases hap : a = p <;> simp [sumFor, hap]

theorem aggUpd_sumFor (agg : List (String × Nat)) (k : String) (c : Nat)
    (p : String) :
    sumFor (aggUpd agg k c) p = sumFor agg p + (if k = p then c else 0) := by
  induction agg with
  | nil =>
      by_cases hkp : k = p <;> simp [sumFor, aggUpd, hkp]
  | cons e rest ih =>
      obtain ⟨k2, c2⟩ := e
      simp only [aggUpd]
      by_cases hk2 : k2 = k
      · rw [if_pos hk2, sumFor_cons, sumFor_cons]
        subst hk2
        by_cases hkp : k2 = p <;> simp [hkp] <;> omega
      · rw [if_neg hk2, sumFor_cons, sumFor_cons, ih]
        by_cases hkp : k = p <;> by_cases hk2p : k2 = p <;>
          simp [hkp, hk2p] <;> omega

theorem sumFor_fold (granularity : String) :
    ∀ (items : List TrendItem) (agg : List (String × Nat)) (p : String),
    sumFor (items.foldl (fun agg it =>
      match dateStrOf it with
      | none => agg
      | some d => aggUpd agg (trendPeriod granularity d) it.count) agg) p
      = sumFor agg p + bucketTotal granularity items p
  | [], agg, p => by simp [bucketTotal]
  | it :: rest, agg, p => by
      rw [List.foldl_cons]
      cases hds : dateStrOf it with
      | none =>
          rw [show (match (none : Option String) with
            | none => agg
            | some d => aggUpd agg (trendPeriod granularity d) it.count) = agg from rfl]
          rw [sumFor_fold granularity rest agg p]
          simp [bucketTotal, hds]
      | some d =>
          rw [show (match (some d : Option String) with
            | none => agg
            | some d => aggUpd agg (trendPeriod granularity d) it.count)
            = aggUpd agg (trendPeriod granularity d) it.count from rfl]
          rw [sumFor_fold granularity rest _ p, aggUpd_sumFor]
          simp only [bucketTotal, List.map_cons, List.sum_cons, hds]
          by_cases hp : trendPeriod granularity d = p <;> simp [hp] <;> omega

theorem sumFor_perm {l1 l2 : List (String × Nat)} (h : l1.Perm l2) (p : String) :
    sumFor l1 p = sumFor l2 p := by
  unfold sumFor
  exact ((h.filter _).map _).sum_eq

-- Digit-block lexicographic comparison.

theorem natOfDigits_foldl_acc :
    ∀ (l : List Char) (a : Nat),
    l.foldl (fun acc c => acc * 10 + (c.toNat - 48)) a
      = a * 10 ^ l.length + natOfDigits l
  | [], a => by simp [natOfDigits]
  | c :: l, a => by
      simp only [natOfDigits, List.foldl_cons]
      rw [natOfDigits_foldl_acc l (a * 10 + (c.toNat - 48)),
          natOfDigits_foldl_acc l (0 * 10 + (c.toNat - 48))]
      simp only [natOfDigits, List.length_cons, pow_succ]
      ring

theorem natOfDigits_cons (c : Char) (l : List Char) :
    natOfDigits (c :: l) = (c.toNat - 48) * 10 ^ l.length + natOfDigits l := by
  have := natOfDigits_foldl_acc l (0 * 10 + (c.toNat - 48))
  simp only [natOfDigits, List.foldl_cons]
  rw [this]
  simp [natOfDigits]

theorem natOfDigits_lt_pow :
    ∀ l : List Char, (∀ c ∈ l, c.toNat ≤ 57) → natOfDigits l < 10 ^ l.length
  | [], _ => by simp [natOfDigits]
  | c :: l, h => by
      rw [natOfDigits_cons]
      have hc : c.toNat - 48 ≤ 9 := by
        have := h c (List.mem_cons_self c l)
        omega
      have hrest := natOfDigits_lt_pow l (fun x hx => h x (List.mem_cons_of_mem c hx))
      have hpow : (c.toNat - 48) * 10 ^ l.length ≤ 9 * 10 ^ l.length :=
        Nat.mul_le_mul_right _ hc
      calc (c.toNat - 48) * 10 ^ l.length + natOfDigits l
          < (c.toNat - 48) * 10 ^ l.length + 10 ^ l.length := by omega
        _ ≤ 9 * 10 ^ l.length + 10 ^ l.length := by omega
        _ = 10 ^ (l.length + 1) := by ring
        _ = 10 ^ (c :: l).length := by simp

theorem natOfDigits_lt_of_head_lt (a b : Char) (as bs : List Char)
    (hlen : as.length = bs.length) (hdig : ∀ c ∈ as, c.toNat ≤ 57)
    (hab : a.toNat < b.toNat) (ha48 : 48 ≤ a.toNat) :
    natOfDigits (a :: as) < natOfDigits (b :: bs) := by
  rw [natOfDigits_cons, natOfDigits_cons, ← hlen]
  have hasb := natOfDigits_lt_pow as hdig
  calc (a.toNat - 48) * 10 ^ as.length + natOfDigits as
      < (a.toNat - 48) * 10 ^ as.length + 10 ^ as.length := by omega
    _ = (a.toNat - 48 + 1) * 10 ^ as.length := by ring
    _ ≤ (b.toNat - 48) * 10 ^ as.length :=
        Nat.mul_le_mul_right _ (by omega)
    _ ≤ (b.toNat - 48) * 10 ^ as.length + natOfDigits bs := Nat.le_add_right _ _

/-- Comparing two equal-length digit blocks followed by arbitrary tails:
the blocks decide unless they are numerically equal, in which case the
tails decide. -/
theorem lexLe_digits :
    ∀ (l1 l2 r1 r2 : List Char), l1.length = l2.length →
    (∀ c ∈ l1, 48 ≤ c.toNat ∧ c.toNat ≤ 57) →
    (∀ c ∈ l2, 48 ≤ c.toNat ∧ c.toNat ≤ 57) →
    lexLe (l1 ++ r1) (l2 ++ r2)
      = (if natOfDigits l1 < natOfDigits l2 then true
         else if natOfDigits l2 < natOfDigits l1 then false
         else lexLe r1 r2)
  | [], [], r1, r2, _, _, _ => by simp [natOfDigits]
  | [], _ :: _, _, _, hlen, _, _ => by simp at hlen
  | _ :: _, [], _, _, hlen, _, _ => by simp at hlen
  | a :: as, b :: bs, r1, r2, hlen, hd1, hd2 => by
      have hlen2 : as.length = bs.length := by simpa using hlen
      have ha := hd1 a (List.mem_cons_self a as)
      have hb := hd2 b (List.mem_cons_self b bs)
      have has := fun c hc => hd1 c (List.mem_cons_of_mem a hc)
      have hbs := fun c hc => hd2 c (List.mem_cons_of_mem b hc)
      rw [List.cons_append, List.cons_append]
      rcases Nat.lt_trichotomy a.toNat b.toNat with h | h | h
      · have hlt : natOfDigits (a :: as) < natOfDigits (b :: bs) :=
          natOfDigits_lt_of_head_lt a b as bs hlen2
            (fun c hc => (has c hc).2) h ha.1
        rw [show lexLe (a :: (as ++ r1)) (b :: (bs ++ r2)) = true from by
          simp only [lexLe]; rw [if_pos h]]
        rw [if_pos hlt]
      · have heads : lexLe (a :: (as ++ r1)) (b :: (bs ++ r2))
            = lexLe (as ++ r1) (bs ++ r2) := by
          simp only [lexLe]
          rw [if_neg (by omega), if_neg (by omega)]
        rw [heads, lexLe_digits as bs r1 r2 hlen2 has hbs]
        have hiff1 : natOfDigits (a :: as) < natOfDigits (b :: bs)
            ↔ natOfDigits as < natOfDigits bs := by
          rw [natOfDigits_cons, natOfDigits_cons, ← hlen2, h]
          omega
        have hiff2 : natOfDigits (b :: bs) < natOfDigits (a :: as)
            ↔ natOfDigits bs < natOfDigits as := by
          rw [natOfDigits_cons, natOfDigits_cons, ← hlen2, h]
          omega
        rw [if_congr hiff1 rfl (if_congr hiff2 rfl rfl)]
      · have hlt : natOfDigits (b :: bs) < natOfDigits (a :: as) :=
          natOfDigits_lt_of_head_lt b a bs as hlen2.symm
            (fun c hc => (hbs c hc).2) h hb.1
        have hnlt : ¬ natOfDigits (a :: as) < natOfDigits (b :: bs) := by omega
        rw [show lexLe (a :: (as ++ r1)) (b :: (bs ++ r2)) = false from by
          simp only [lexLe]; rw [if_neg (by omega), if_pos h]]
        rw [if_neg hnlt, if_pos hlt]

theorem lexLe_cons_same (c : Char) (x y : List Char) :
    lexLe (c :: x) (c :: y) = lexLe x y := by
  simp only [lexLe]
  rw [if_neg (by omega), if_neg (by omega)]

theorem lexLe_digits_total (l1 l2 : List Char) (hlen : l1.length = l2.length)
    (h1 : ∀ c ∈ l1, 48 ≤ c.toNat ∧ c.toNat ≤ 57)
    (h2 : ∀ c ∈ l2, 48 ≤ c.toNat ∧ c.toNat ≤ 57) :
    lexLe l1 l2 = true ↔ natOfDigits l1 ≤ natOfDigits l2 := by
  have h := lexLe_digits l1 l2 [] [] hlen h1 h2
  rw [List.append_nil, List.append_nil] at h
  rw [h]
  rcases Nat.lt_trichotomy (natOfDigits l1) (natOfDigits l2) with hc | hc | hc
  · rw [if_pos hc]
    simp
    omega
  · rw [if_neg (by omega), if_neg (by omega)]
    simp [lexLe]
    omega
  · rw [if_neg (by omega), if_pos hc]
    simp
    omega

/-- Two labels sharing the layout "digit block, then a tail worth `< B`":
the lexicographic comparison matches the positional value comparison. -/
theorem lexLe_two_blocks (y1 y2 mid1 mid2 : List Char) (B v1 v2 : Nat)
    (hylen : y1.length = y2.length)
    (hd1 : ∀ c ∈ y1, 48 ≤ c.toNat ∧ c.toNat ≤ 57)
    (hd2 : ∀ c ∈ y2, 48 ≤ c.toNat ∧ c.toNat ≤ 57)
    (hmid : lexLe mid1 mid2 = true ↔ v1 ≤ v2)
    (hv1 : v1 < B) (hv2 : v2 < B) :
    (lexLe (y1 ++ mid1) (y2 ++ mid2) = true ↔
      natOfDigits y1 * B + v1 ≤ natOfDigits y2 * B + v2) := by
  rw [lexLe_digits y1 y2 mid1 mid2 hylen hd1 hd2]
  rcases Nat.lt_trichotomy (natOfDigits y1) (natOfDigits y2) with hc | hc | hc
  · rw [if_pos hc]
    have hlt : natOfDigits y1 * B + v1 < natOfDigits y2 * B + v2 := by
      calc natOfDigits y1 * B + v1 < natOfDigits y1 * B + B := by omega
        _ = (natOfDigits y1 + 1) * B := by ring
        _ ≤ natOfDigits y2 * B := Nat.mul_le_mul_right _ (by omega)
        _ ≤ natOfDigits y2 * B + v2 := Nat.le_add_right _ _
    simp
    omega
  · rw [if_neg (by omega), if_neg (by omega), hmid, hc]
    omega
  · rw [if_neg (by omega), if_pos hc]
    have hlt : natOfDigits y2 * B + v2 < natOfDigits y1 * B + v1 := by
      calc natOfDigits y2 * B + v2 < natOfDigits y2 * B + B := by omega
        _ = (natOfDigits y2 + 1) * B := by ring
        _ ≤ natOfDigits y1 * B := Nat.mul_le_mul_right _ (by omega)
        _ ≤ natOfDigits y1 * B + v1 := Nat.le_add_right _ _
    simp
    omega

theorem lexLe_single (a b : Char) : lexLe [a] [b] = true ↔ a.toNat ≤ b.toNat := by
  simp only [lexLe]
  rcases Nat.lt_trichotomy a.toNat b.toNat with h | h | h
  · rw [if_pos h]
    simp
    omega
  · rw [if_neg (by omega), if_neg (by omega)]
    simp [lexLe]
    omega
  · rw [if_neg (by omega), if_pos h]
    simp
    omega

theorem year_block_len (d1 d2 : String) (h1 : wfDate d1) (h2 : wfDate d2) :
    (d1.data.take 4).length = (d2.data.take 4).length := by
  simp [List.length_take, h1.1, h2.1]

theorem year_block_dig (d : String) (hw : wfDate d) :
    ∀ c ∈ d.data.take 4, 48 ≤ c.toNat ∧ c.toNat ≤ 57 :=
  fun c hc => hw.2 c (List.mem_of_mem_take hc)

theorem month_block_len (d : String) (hw : wfDate d) :
    ((d.data.drop 4).take 2).length = 2 := by
  simp [List.length_take, List.length_drop, hw.1]

theorem month_block_dig (d : String) (hw : wfDate d) :
    ∀ c ∈ (d.data.drop 4).take 2, 48 ≤ c.toNat ∧ c.toNat ≤ 57 :=
  fun c hc => hw.2 c (List.mem_of_mem_drop (List.mem_of_mem_take hc))

theorem monthNum_lt_100 (d : String) (hw : wfDate d) : monthNum d < 100 := by
  have h := natOfDigits_lt_pow ((d.data.drop 4).take 2)
    (fun c hc => (month_block_dig d hw c hc).2)
  rw [month_block_len d hw] at h
  norm_num at h
  exact h

theorem jsCeil_div3 (m : Nat) (h1 : 1 ≤ m) (h2 : m ≤ 12) :
    jsCeil ((m : ℚ) / 3) = ((m + 2) / 3 : ℕ) := by
  interval_cases m <;> (rw [jsCeil, Int.ceil_eq_iff] ; norm_num)

/-- The quarter digit printed into the label, for a valid month. -/
theorem quarter_toString (m : Nat) (h1 : 1 ≤ m) (h2 : m ≤ 12) :
    (toString (jsCeil ((m : ℚ) / 3))).data = [Char.ofNat (48 + (m + 2) / 3)]
    ∧ (Char.ofNat (48 + (m + 2) / 3)).toNat = 48 + (m + 2) / 3 := by
  refine ⟨?_, ?_⟩
  · rw [jsCeil_div3 m h1 h2]
    interval_cases m <;> decide
  · interval_cases m <;> decide

-- Label shapes.

theorem trendPeriod_year_data (d : String) :
    (trendPeriod "year" d).data = d.data.take 4 := rfl

theorem trendPeriod_month_data (d : String) :
    (trendPeriod "month" d).data
      = d.data.take 4 ++ ('-' :: (d.data.drop 4).take 2) := by
  show (jsSlice d 0 4 ++ "-" ++ jsSlice d 4 6).data = _
  simp [data_append, jsSlice]

theorem trendPeriod_quarter_data (d : String) :
    (trendPeriod "quarter" d).data
      = d.data.take 4
        ++ ('-' :: 'Q' :: (toString (jsCeil ((monthNum d : ℚ) / 3))).data) := by
  show (jsSlice d 0 4 ++ "-Q"
    ++ toString (jsCeil ((parseIntNat (jsSlice d 4 6) : ℚ) / 3))).data = _
  rw [show parseIntNat (jsSlice d 4 6) = monthNum d from rfl]
  simp [data_append, jsSlice]

/-- C9: the trend handler buckets daily counts into year / month / quarter
(`⌈month/3⌉`) periods, sums the counts per bucket, sorts the buckets
lexicographically by label, and on zero-padded dates that lexicographic
order is the chronological order of the (year, month/quarter) keys. -/
theorem reportingTrends_spec (granularity : String) (items : List TrendItem) :
    List.Sorted trendRel (reportingTrends granularity items)
    ∧ (∀ p, sumFor (reportingTrends granularity items) p
        = bucketTotal granularity items p)
    ∧ (∀ d, trendPeriod "year" d = jsSlice d 0 4)
    ∧ (∀ d, trendPeriod "month" d = jsSlice d 0 4 ++ "-" ++ jsSlice d 4 6)
    ∧ (∀ d, trendPeriod "quarter" d = jsSlice d 0 4 ++ "-Q"
        ++ toString (jsCeil ((parseIntNat (jsSlice d 4 6) : ℚ) / 3)))
    ∧ (∀ d1 d2, wfDate d1 → wfDate d2 →
        (lexLe (trendPeriod "year" d1).data (trendPeriod "year" d2).data = true ↔
          yearNum d1 ≤ yearNum d2))
    ∧ (∀ d1 d2, wfDate d1 → wfDate d2 →
        (lexLe (trendPeriod "month" d1).data (trendPeriod "month" d2).data = true ↔
          yearNum d1 * 100 + monthNum d1 ≤ yearNum d2 * 100 + monthNum d2))
    ∧ (∀ d1 d2, wfDate d1 → wfDate d2 →
        1 ≤ monthNum d1 → monthNum d1 ≤ 12 → 1 ≤ monthNum d2 → monthNum d2 ≤ 12 →
        (lexLe (trendPeriod "quarter" d1).data (trendPeriod "quarter" d2).data = true ↔
          yearNum d1 * 10 + quarterNum d1 ≤ yearNum d2 * 10 + quarterNum d2)) := by
  refine ⟨?_, ?_, fun d => rfl, fun d => rfl, fun d => rfl, ?_, ?_, ?_⟩
  · simp only [reportingTrends]
    exact List.sorted_insertionSort trendRel _
  · intro p
    simp only [reportingTrends]
    rw [sumFor_perm (List.perm_insertionSort trendRel _) p, sumFor_fold]
    simp [sumFor]
  · intro d1 d2 hw1 hw2
    rw [trendPeriod_year_data, trendPeriod_year_data]
    exact lexLe_digits_total _ _ (year_block_len d1 d2 hw1 hw2)
      (year_block_dig d1 hw1) (year_block_dig d2 hw2)
  · intro d1 d2 hw1 hw2
    rw [trendPeriod_month_data, trendPeriod_month_data]
    have hmid : lexLe ('-' :: (d1.data.drop 4).take 2)
        ('-' :: (d2.data.drop 4).take 2) = true ↔ monthNum d1 ≤ monthNum d2 := by
      rw [lexLe_cons_same]
      exact lexLe_digits_total _ _
        (by rw [month_block_len d1 hw1, month_block_len d2 hw2])
        (month_block_dig d1 hw1) (month_block_dig d2 hw2)
    exact lexLe_two_blocks _ _ _ _ 100 (monthNum d1) (monthNum d2)
      (year_block_len d1 d2 hw1 hw2) (year_block_dig d1 hw1) (year_block_dig d2 hw2)
      hmid (monthNum_lt_100 d1 hw1) (monthNum_lt_100 d2 hw2)
  · intro d1 d2 hw1 hw2 hm1a hm1b hm2a hm2b
    obtain ⟨hq1, hq1n⟩ := quarter_toString (monthNum d1) hm1a hm1b
    obtain ⟨hq2, hq2n⟩ := quarter_toString (monthNum d2) hm2a hm2b
    rw [trendPeriod_quarter_data, trendPeriod_quarter_data, hq1, hq2]
    have hmid : lexLe ('-' :: 'Q' :: [Char.ofNat (48 + (monthNum d1 + 2) / 3)])
        ('-' :: 'Q' :: [Char.ofNat (48 + (monthNum d2 + 2) / 3)]) = true
        ↔ quarterNum d1 ≤ quarterNum d2 := by
      rw [lexLe_cons_same, lexLe_cons_same, lexLe_single, hq1n, hq2n]
      simp only [quarterNum]
      omega
    have hb1 : quarterNum d1 < 10 := by simp only [quarterNum]; omega
    have hb2 : quarterNum d2 < 10 := by simp only [quarterNum]; omega
    exact lexLe_two_blocks _ _ _ _ 10 (quarterNum d1) (quarterNum d2)
      (year_block_len d1 d2 hw1 hw2) (year_block_dig d1 hw1) (year_block_dig d2 hw2)
      hmid hb1 hb2

theorem reportingTrends_spec_witness :
    sumFor (reportingTrends "quarter"
        [⟨some "20230115", none, 3⟩, ⟨some "20230304", none, 2⟩,
         ⟨some "20240101", none, 5⟩]) "2023-Q1"
      = bucketTotal "quarter"
        [⟨some "20230115", none, 3⟩, ⟨some "20230304", none, 2⟩,
         ⟨some "20240101", none, 5⟩] "2023-Q1"
    ∧ (lexLe (trendPeriod "quarter" "20230115").data
        (trendPeriod "quarter" "20240101").data = true ↔
        yearNum "20230115" * 10 + quarterNum "20230115"
          ≤ yearNum "20240101" * 10 + quarterNum "20240101") := by
  constructor
  · exact (reportingTrends_spec "quarter"
      [⟨some "20230115", none, 3⟩, ⟨some "20230304", none, 2⟩,
       ⟨some "20240101", none, 5⟩]).2.1 "2023-Q1"
  · exact (reportingTrends_spec "quarter" []).2.2.2.2.2.2.2 "20230115" "20240101"
      (by decide) (by decide) (by decide) (by decide) (by decide) (by decide)

end DrugSafety
